import Mathlib

/-!
Shallow embedding of the chit (installment-savings) subsystem of the
NVJ-backend repository: models/Chit.js, models/ChitPayment.js,
models/Customer.js, routes/chits.js, the chit-payments router and the
counter helper.  JavaScript numbers are modelled as rationals, counts as
integers, identifiers as character lists, statuses as inductive types,
and the document store as explicit lists threaded through each route
handler.  Dates are modelled as calendar triples with the JavaScript
month-increment normalization.
-/

namespace NVJ

/-!
Rational arithmetic: the Batteries field operations on `ℚ` are marked
irreducible, so the embedding computes with `mkRat`-normalized wrappers,
each proved equal to the corresponding field operation.  This keeps every
operation of the model evaluable by the kernel on concrete inputs.
-/

/-- Computable rational addition. -/
def radd (a b : ℚ) : ℚ := mkRat (a.num * b.den + b.num * a.den) (a.den * b.den)

/-- Computable rational subtraction. -/
def rsub (a b : ℚ) : ℚ := mkRat (a.num * b.den - b.num * a.den) (a.den * b.den)

/-- Computable rational multiplication. -/
def rmul (a b : ℚ) : ℚ := mkRat (a.num * b.num) (a.den * b.den)

/-- Computable rational division (0 when the divisor is 0, matching the
convention of division on `ℚ`). -/
def rdiv (a b : ℚ) : ℚ :=
  if 0 ≤ b.num then mkRat (a.num * b.den) (a.den * b.num.natAbs)
  else mkRat (-(a.num * b.den)) (a.den * b.num.natAbs)

theorem mul_den (a : ℚ) : a * ((a.den : ℚ)) = ((a.num : ℚ)) := by
  nth_rewrite 1 [← Rat.num_div_den a]
  exact div_mul_cancel₀ ((a.num : ℚ)) (Nat.cast_ne_zero.mpr a.den_nz)

theorem radd_eq (a b : ℚ) : radd a b = a + b := by
  unfold radd
  have hden : ((a.den : ℚ)) * ((b.den : ℚ)) ≠ 0 :=
    mul_ne_zero (Nat.cast_ne_zero.mpr a.den_nz) (Nat.cast_ne_zero.mpr b.den_nz)
  rw [Rat.mkRat_eq_div, Nat.cast_mul, div_eq_iff hden]
  push_cast
  rw [← mul_den a, ← mul_den b]
  ring

theorem rsub_eq (a b : ℚ) : rsub a b = a - b := by
  unfold rsub
  have hden : ((a.den : ℚ)) * ((b.den : ℚ)) ≠ 0 :=
    mul_ne_zero (Nat.cast_ne_zero.mpr a.den_nz) (Nat.cast_ne_zero.mpr b.den_nz)
  rw [Rat.mkRat_eq_div, Nat.cast_mul, div_eq_iff hden]
  push_cast
  rw [← mul_den a, ← mul_den b]
  ring

theorem rmul_eq (a b : ℚ) : rmul a b = a * b := by
  unfold rmul
  have hden : ((a.den : ℚ)) * ((b.den : ℚ)) ≠ 0 :=
    mul_ne_zero (Nat.cast_ne_zero.mpr a.den_nz) (Nat.cast_ne_zero.mpr b.den_nz)
  rw [Rat.mkRat_eq_div, Nat.cast_mul, div_eq_iff hden]
  push_cast
  rw [← mul_den a, ← mul_den b]
  ring

theorem div_repr (a b : ℚ) (hb : b ≠ 0) :
    ((a.num : ℚ) * (b.den : ℚ)) / ((a.den : ℚ) * (b.num : ℚ)) = a / b := by
  have hA : ((a.den : ℚ)) ≠ 0 := Nat.cast_ne_zero.mpr a.den_nz
  have hBn : ((b.num : ℚ)) ≠ 0 := Int.cast_ne_zero.mpr (Rat.num_ne_zero.mpr hb)
  rw [div_eq_div_iff (mul_ne_zero hA hBn) hb]
  rw [← mul_den a, ← mul_den b]
  ring

theorem rdiv_eq (a b : ℚ) : rdiv a b = a / b := by
  unfold rdiv
  rcases eq_or_ne b 0 with hb | hb
  · subst hb
    norm_num [Rat.mkRat_eq_div]
  · have hb0 : b.num ≠ 0 := Rat.num_ne_zero.mpr hb
    split
    · rename_i hpos
      have hnum : ((b.num.natAbs : ℕ) : ℤ) = b.num := Int.natAbs_of_nonneg hpos
      have hcast : ((b.num.natAbs : ℕ) : ℚ) = ((b.num : ℤ) : ℚ) := by
        have h1 : ((b.num.natAbs : ℕ) : ℚ) = (((b.num.natAbs : ℕ) : ℤ) : ℚ) :=
          (Int.cast_natCast _).symm
        rw [h1, hnum]
      rw [Rat.mkRat_eq_div, Nat.cast_mul, hcast, Int.cast_mul, Int.cast_natCast]
      exact div_repr a b hb
    · rename_i hneg
      push_neg at hneg
      have hnum : ((b.num.natAbs : ℕ) : ℤ) = -b.num := by
        rw [← Int.natAbs_neg]
        exact Int.natAbs_of_nonneg (by omega)
      have hcast : ((b.num.natAbs : ℕ) : ℚ) = -((b.num : ℤ) : ℚ) := by
        have h1 : ((b.num.natAbs : ℕ) : ℚ) = (((b.num.natAbs : ℕ) : ℤ) : ℚ) :=
          (Int.cast_natCast _).symm
        rw [h1, hnum, Int.cast_neg]
      rw [Rat.mkRat_eq_div, Nat.cast_mul, hcast, Int.cast_neg, Int.cast_mul, Int.cast_natCast]
      rw [mul_neg, neg_div_neg_eq]
      exact div_repr a b hb

/-- JavaScript `Math.round`: round half toward positive infinity. -/
def jsRound (q : ℚ) : ℤ := Rat.floor (radd q (mkRat 1 2))

theorem jsRound_eq (q : ℚ) : jsRound q = ⌊q + 1 / 2⌋ := by
  unfold jsRound
  rw [radd_eq]
  have h2 : mkRat 1 2 = (1 : ℚ) / 2 := by
    rw [Rat.mkRat_eq_div]
    norm_num
  rw [h2, Rat.floor_def', ← Rat.floor_def]

/-- Decimal digit character for `n % 10`. -/
def digitChar (n : ℕ) : Char := Char.ofNat (48 + n % 10)

/-- Fuel-driven decimal digit accumulator (structural recursion so that
the kernel can evaluate it on concrete inputs). -/
def natDigitsAux : ℕ → ℕ → List Char
  | 0, _ => []
  | fuel + 1, n =>
    if n < 10 then [digitChar n]
    else natDigitsAux fuel (n / 10) ++ [digitChar (n % 10)]

/-- Decimal representation of a natural number, as JavaScript string
conversion produces for a nonnegative integer. -/
def natDigits (n : ℕ) : List Char := natDigitsAux (n + 1) n

/-- JavaScript `String.prototype.padStart` on character lists: pad on the
left with `c` up to length `n` (never truncates). -/
def padStart (l : List Char) (n : ℕ) (c : Char) : List Char :=
  List.replicate (n - l.length) c ++ l

theorem padStart_length (l : List Char) (n : ℕ) (c : Char) :
    (padStart l n c).length = max n l.length := by
  simp [padStart]
  omega

theorem natDigitsAux_length_le : ∀ (fuel k n : ℕ), 1 ≤ k → n < 10 ^ k →
    (natDigitsAux fuel n).length ≤ k := by
  intro fuel
  induction fuel with
  | zero =>
    intro k n hk _
    simp [natDigitsAux]
  | succ fuel ih =>
    intro k n hk hn
    unfold natDigitsAux
    split
    · simpa using hk
    · rename_i h10
      have hk2 : 2 ≤ k := by
        by_contra hcon
        have hk1 : k = 1 := by omega
        subst hk1
        simp at hn
        omega
      have hdiv : n / 10 < 10 ^ (k - 1) := by
        rw [Nat.div_lt_iff_lt_mul (by omega)]
        have h1 : 10 ^ (k - 1) * 10 = 10 ^ k := by
          rw [← Nat.pow_succ]
          congr 1
          omega
        omega
      have := ih (k - 1) (n / 10) (by omega) hdiv
      simp only [List.length_append, List.length_cons, List.length_nil]
      omega

theorem natDigits_length_le (k n : ℕ) (hk : 1 ≤ k) (hn : n < 10 ^ k) :
    (natDigits n).length ≤ k :=
  natDigitsAux_length_le (n + 1) k n hk hn

/-- Calendar date as JavaScript `Date` exposes it: full year, zero-based
month in `[0, 11]`, day of month in `[1, 31]`.  Time-of-day components are
not tracked (no claim depends on them). -/
structure JDate where
  year : ℤ
  month : ℤ
  day : ℤ
deriving DecidableEq, Repr

/-- Gregorian leap-year rule, as JavaScript `Date` uses. -/
def isLeapYear (y : ℤ) : Bool :=
  (y % 4 == 0 && y % 100 != 0) || y % 400 == 0

/-- Number of days in the (zero-based) month `m` of year `y`. -/
def daysInMonth (y m : ℤ) : ℤ :=
  if m = 1 then (if isLeapYear y then 29 else 28)
  else if m = 3 ∨ m = 5 ∨ m = 8 ∨ m = 10 then 30
  else 31

/-- JavaScript `d.setMonth(d.getMonth() + 1)` on a valid date: increment
the month and normalize a day overflow into the following month, as the
`Date` object does. -/
def addOneMonth (d : JDate) : JDate :=
  let m1 := d.month + 1
  let y1 := if 12 ≤ m1 then d.year + 1 else d.year
  let m2 := if 12 ≤ m1 then m1 - 12 else m1
  let dim := daysInMonth y1 m2
  if d.day ≤ dim then ⟨y1, m2, d.day⟩
  else
    let m3 := m2 + 1
    let y2 := if 12 ≤ m3 then y1 + 1 else y1
    let m4 := if 12 ≤ m3 then m3 - 12 else m3
    ⟨y2, m4, d.day - dim⟩

/-- Chit lifecycle status enumeration (models/Chit.js `status` enum). -/
inductive ChitStatus
  | active
  | completed
  | defaulted
  | cancelled
  | settled
deriving DecidableEq, Repr

/-- Payment method enumeration. -/
inductive PayMethod
  | cash
  | bank
  | upi
  | gold
deriving DecidableEq, Repr

/-- Settlement type enumeration (models/Chit.js `settlementType` enum). -/
inductive SettlementType
  | cash
  | gold
  | partialGold
  | purchaseSettlement
  | chitSettlement
deriving DecidableEq, Repr

/-- Settlement status enumeration. -/
inductive SettlementState
  | pending
  | completed
  | disputed
deriving DecidableEq, Repr

/-- Payment record status enumeration (models/ChitPayment.js). -/
inductive PaymentStatus
  | pending
  | completed
  | failed
  | refunded
deriving DecidableEq, Repr

/-- The `accumulatedGold` sub-document of a chit.  The `lastUpdated`
timestamp bookkeeping field is omitted. -/
structure AccumulatedGold where
  totalWeight : ℚ
  weightPerInstallment : ℚ
  currentGoldRate : ℚ
  purity : String
deriving DecidableEq, Repr

/-- One entry of a chit's embedded `paymentHistory` array. -/
structure HistoryEntry where
  installmentNumber : ℤ
  paymentDate : JDate
  amount : ℚ
  goldRate : ℚ
  goldWeight : ℚ
  receiptNumber : List Char
deriving DecidableEq, Repr

/-- One purchased line item recorded by a purchase settlement. -/
structure PurchaseItem where
  name : String
  sku : String
  price : ℚ
  quantity : ℤ
deriving DecidableEq, Repr

/-- The Chit document (models/Chit.js).  `createdAt` / `updatedAt`
timestamp bookkeeping and the free-text `agentName` field are omitted;
`id` stands for the Mongo `_id`. -/
structure Chit where
  id : ℕ
  chitNumber : List Char
  customerId : ℕ
  customerName : String
  customerPhone : String
  startDate : JDate
  endDate : JDate
  chitAmount : ℚ
  installmentAmount : ℚ
  totalInstallments : ℤ
  paidInstallments : ℤ
  remainingInstallments : ℤ
  accumulatedGold : AccumulatedGold
  nextDueDate : JDate
  paymentHistory : List HistoryEntry
  status : ChitStatus
  paymentMethod : PayMethod
  notes : String
  settlementType : Option SettlementType
  settlementDate : Option JDate
  settlementAmount : Option ℚ
  settlementGoldRate : Option ℚ
  settlementStatus : Option SettlementState
  purchaseInvoiceNumber : Option String
  purchaseItems : List PurchaseItem
deriving DecidableEq, Repr

/-- The `goldDetails` sub-document of a payment record. -/
structure GoldDetails where
  goldRate : ℚ
  goldWeight : ℚ
  purity : String
  calculatedValue : ℚ
deriving DecidableEq, Repr

/-- The ChitPayment document (models/ChitPayment.js).  Timestamp
bookkeeping fields are omitted. -/
structure ChitPayment where
  chitId : ℕ
  chitNumber : List Char
  customerId : ℕ
  customerName : String
  installmentNumber : ℤ
  amount : ℚ
  paymentDate : JDate
  paymentMethod : PayMethod
  goldDetails : GoldDetails
  receiptNumber : List Char
  notes : String
  collectedBy : String
  paymentStatus : PaymentStatus
deriving DecidableEq, Repr

/-- The Customer document as models/Customer.js defines it: name, phone,
email, gstNumber, aadharNumber, panNumber, createdAt.  The schema defines
no chit-related fields — in particular no `chitCustomer` flag and no
`chitDetails` aggregate-counter sub-document — and it does not disable
strict mode. -/
structure Customer where
  id : ℕ
  name : String
  phone : List Char
  email : Option String
  gstNumber : Option String
  aadharNumber : Option String
  panNumber : Option String
  createdAt : JDate
deriving DecidableEq, Repr

/-- The document store as the chit subsystem sees it: the chit and payment
collections, the customers, and the current 22K gold rate row of the rate
board (`Rate.findOne gold 22K`). -/
structure DB where
  chits : List Chit
  payments : List ChitPayment
  customers : List Customer
  goldRate22K : Option ℚ
deriving DecidableEq, Repr

/-- Outcome of one route handler: a success payload or an HTTP error
status with its message. -/
inductive ApiResult (α : Type)
  | ok : α → ApiResult α
  | err : ℕ → String → ApiResult α
deriving DecidableEq, Repr

/-- `Chit.findById`. -/
def findChit (db : DB) (cid : ℕ) : Option Chit :=
  db.chits.find? (fun c => c.id == cid)

/-- Persisting an updated chit document back into its collection. -/
def setChit (db : DB) (c : Chit) : DB :=
  { db with chits := db.chits.map (fun x => if x.id = c.id then c else x) }

/-- `Customer.findByIdAndUpdate(customerId, updates)` as called by the
`updateCustomerChitStats` helper of routes/chits.js.  Every update path the
chit routes pass — the `$set` of `chitCustomer` and the `$inc`s of the
`chitDetails.*` counters — is absent from the Customer schema of
models/Customer.js, and the schema does not disable strict mode, so
Mongoose strips all of them from the update: the call leaves the customer
document unchanged (a missing customer is likewise ignored, and the helper
swallows errors).  The effective semantics is therefore the identity on
the store. -/
def updateCustomerChitStats (db : DB) ( _cid : ℕ) : DB := db

/-- Mongoose schema validation of a Chit document: the `min` bounds of
models/Chit.js (`chitAmount`, `installmentAmount` at least 0,
`totalInstallments` at least 1, `paidInstallments` and
`remainingInstallments` at least 0, settlement amount and gold rate at
least 0 when present). -/
def chitValidate (c : Chit) : Bool :=
  decide (0 ≤ c.chitAmount) && decide (0 ≤ c.installmentAmount) &&
  decide (1 ≤ c.totalInstallments) && decide (0 ≤ c.paidInstallments) &&
  decide (0 ≤ c.remainingInstallments) &&
  (match c.settlementAmount with
   | some a => decide (0 ≤ a)
   | none => true) &&
  (match c.settlementGoldRate with
   | some r => decide (0 ≤ r)
   | none => true)

/-- The `chitSchema.pre('save')` middleware of models/Chit.js: recompute
`remainingInstallments`, auto-advance an active fully-paid chit to
`completed` (stamping the end date with the current time), and default the
settlement status to `completed` when a positive settlement amount is
present without one.  The settlement-status defaulting step is split out
as `applySettlementDefault`. -/
def applySettlementDefault (c : Chit) : Chit :=
  match c.settlementAmount, c.settlementStatus with
  | some a, none =>
    if 0 < a then { c with settlementStatus := some SettlementState.completed } else c
  | _, _ => c

def chitPreSave (now : JDate) (c0 : Chit) : Chit :=
  let c1 := { c0 with remainingInstallments := c0.totalInstallments - c0.paidInstallments }
  let c2 :=
    if c1.status = ChitStatus.active ∧ c1.totalInstallments ≤ c1.paidInstallments then
      { c1 with status := ChitStatus.completed, endDate := now }
    else c1
  applySettlementDefault c2

/-- `chit.save()`: mongoose runs validation first (validate hooks precede
the save hooks), then the pre-save middleware, then persists. -/
def chitSave (now : JDate) (c : Chit) : Except String Chit :=
  if chitValidate c then Except.ok (chitPreSave now c)
  else Except.error ("Chit validation failed")

/-- Mongoose schema validation of a ChitPayment document: the `min`
bounds of models/ChitPayment.js. -/
def paymentValidate (p : ChitPayment) : Bool :=
  decide (0 ≤ p.amount) && decide (1 ≤ p.installmentNumber) &&
  decide (0 ≤ p.goldDetails.goldRate) && decide (0 ≤ p.goldDetails.goldWeight) &&
  decide (0 ≤ p.goldDetails.calculatedValue)

/-- The `chitPaymentSchema.pre('save')` middleware of
models/ChitPayment.js: reject a non-positive gold rate, and for a positive
amount recompute the gold weight as amount divided by gold rate and the
calculated value as the amount. -/
def paymentPreSave (p : ChitPayment) : Except String ChitPayment :=
  if p.goldDetails.goldRate ≤ 0 then Except.error ("Gold rate is required for payment")
  else Except.ok
    (if 0 < p.amount then
      { p with goldDetails :=
        { p.goldDetails with
          goldWeight := rdiv p.amount p.goldDetails.goldRate,
          calculatedValue := p.amount } }
    else p)

/-- `payment.save()`: validation, then the pre-save middleware, then the
unique index on `receiptNumber` at insertion. -/
def paymentSave (db : DB) (p : ChitPayment) : Except String (ChitPayment × DB) :=
  if paymentValidate p then
    match paymentPreSave p with
    | Except.error e => Except.error e
    | Except.ok p1 =>
      if db.payments.any (fun q => q.receiptNumber == p1.receiptNumber) then
        Except.error ("E11000 duplicate receiptNumber")
      else Except.ok (p1, { db with payments := db.payments ++ [p1] })
  else Except.error ("ChitPayment validation failed")

/-- The atomic named counter of utils/counterHelper.js
(`Counter.findOneAndUpdate` with `$inc` and upsert): post-increment value
plus the updated counter store. -/
def getNextSequence (counters : List (List Char × ℕ)) (name : List Char) :
    ℕ × List (List Char × ℕ) :=
  match counters.find? (fun kv => kv.1 == name) with
  | some kv =>
    (kv.2 + 1, counters.map (fun x => if x.1 == name then (x.1, kv.2 + 1) else x))
  | none => (1, counters ++ [(name, 1)])

/-- Counter key used by `generateChitNumber`. -/
def chitCounterName (year : ℕ) : List Char := "chit_".toList ++ natDigits year

/-- Counter key used by `generateReceiptNumber`. -/
def receiptCounterName (year : ℕ) : List Char := "receipt_".toList ++ natDigits year

/-- `generateChitNumber` of utils/counterHelper.js, applied to the current
year and the value returned by the named counter. -/
def generateChitNumber (year seq : ℕ) : List Char :=
  "CHIT".toList ++ natDigits year ++ padStart (natDigits seq) 4 '0'

/-- `generateReceiptNumber` of utils/counterHelper.js. -/
def generateReceiptNumber (year seq : ℕ) : List Char :=
  "RC".toList ++ natDigits year ++ padStart (natDigits seq) 6 '0'

/-- The fallback receipt number minted by the direct chit-payments
endpoint when the client supplies none:
`CHIT-` then `Date.now()` then `-` then `Math.floor(Math.random()*1000)`.
`nowMs` is the millisecond timestamp and `rand` the already-floored random
value. -/
def fallbackReceiptNumber (nowMs rand : ℕ) : List Char :=
  "CHIT-".toList ++ natDigits nowMs ++ "-".toList ++ natDigits rand

/-- JavaScript truthiness of an optional numeric request field. -/
def truthyRat (o : Option ℚ) : Bool :=
  match o with
  | some r => decide (r ≠ 0)
  | none => false

/-- Receipt-number selection of `POST /chits/:id/payment`: a truthy
client-supplied receipt number, else a generated one. -/
def chosenReceiptNumber (o : Option (List Char)) (year seq : ℕ) : List Char :=
  match o with
  | some s => if s = [] then generateReceiptNumber year seq else s
  | none => generateReceiptNumber year seq

/-- Receipt-number selection of `POST /chit-payments`: a truthy
client-supplied receipt number, else the timestamp-based fallback. -/
def chosenDirectReceipt (o : Option (List Char)) (nowMs rand : ℕ) : List Char :=
  match o with
  | some s => if s = [] then fallbackReceiptNumber nowMs rand else s
  | none => fallbackReceiptNumber nowMs rand

/-- Request body of `POST /chits` (routes/chits.js).  Fields a client may
omit are `Option`s; `totalInstallments` carries the destructuring default
11 only when absent. -/
structure CreateChitReq where
  customerId : Option ℕ
  customerName : String
  customerPhone : String
  startDate : JDate
  endDate : JDate
  chitAmount : ℚ
  totalInstallments : Option ℤ
  notes : Option String
deriving DecidableEq, Repr

/-- `POST /chits`: create a chit.  `year` and `seq` are the current year
and the value minted by the chit counter, `newId` the Mongo id assigned to
the new document, `now` the current date. -/
def createChit (db : DB) (req : CreateChitReq) (year seq newId : ℕ) (now : JDate) :
    ApiResult Chit × DB :=
  let T : ℤ := req.totalInstallments.getD 11
  -- JavaScript truthiness of the required-fields check: a missing
  -- customer id, empty strings, a zero amount or a zero installment
  -- count (an explicit 0 bypasses the destructuring default) all fail.
  if req.customerId = none ∨ req.customerName = "" ∨ req.customerPhone = "" ∨
      req.chitAmount = 0 ∨ T = 0 then
    (ApiResult.err 400 ("Required fields are missing"), db)
  else
    let customerId := req.customerId.getD 0
    let chitNumber := generateChitNumber year seq
    let nextDue := addOneMonth req.startDate
    let installmentAmount : ℚ := ((jsRound (rdiv req.chitAmount ((T : ℤ) : ℚ))) : ℚ)
    let currentGoldRate := db.goldRate22K.getD 5000
    let newChit : Chit :=
      { id := newId
        chitNumber := chitNumber
        customerId := customerId
        customerName := req.customerName
        customerPhone := req.customerPhone
        startDate := req.startDate
        endDate := req.endDate
        chitAmount := req.chitAmount
        installmentAmount := installmentAmount
        totalInstallments := T
        paidInstallments := 0
        remainingInstallments := T
        accumulatedGold :=
          { totalWeight := 0
            weightPerInstallment := rdiv installmentAmount currentGoldRate
            currentGoldRate := currentGoldRate
            purity := "22K" }
        nextDueDate := nextDue
        paymentHistory := []
        status := ChitStatus.active
        paymentMethod := PayMethod.cash
        notes := req.notes.getD ("")
        settlementType := none
        settlementDate := none
        settlementAmount := none
        settlementGoldRate := none
        settlementStatus := some SettlementState.pending
        purchaseInvoiceNumber := none
        purchaseItems := [] }
    -- unique index on chitNumber
    if db.chits.any (fun c => c.chitNumber == chitNumber) then
      (ApiResult.err 400 ("Chit number already exists"), db)
    else
      match chitSave now newChit with
      | Except.error _ => (ApiResult.err 400 ("Validation failed"), db)
      | Except.ok saved =>
        let db1 := { db with chits := db.chits ++ [saved] }
        -- intended update: $set chitCustomer, $inc chitDetails.totalChits,
        -- .activeChits, .totalInvestment — all stripped by strict mode
        let db2 := updateCustomerChitStats db1 customerId
        (ApiResult.ok saved, db2)

/-- Request body of `POST /chits/:id/payment`. -/
structure PaymentReq where
  installmentNumber : Option ℤ
  amount : ℚ
  paymentMethod : Option PayMethod
  paymentDate : Option JDate
  receiptNumber : Option (List Char)
  currentGoldRate : Option ℚ
  notes : Option String
  collectedBy : Option String
deriving DecidableEq, Repr

/-- The installment-sequence guard of `POST /chits/:id/payment`:
`installmentNumber && installmentNumber !== expected` — a supplied zero is
falsy and bypasses the guard. -/
def instMismatch (req : PaymentReq) (chit : Chit) : Bool :=
  match req.installmentNumber with
  | some n => decide (n ≠ 0) && decide (n ≠ chit.paidInstallments + 1)
  | none => false

/-- The success path of `POST /chits/:id/payment` after the guards:
create and save the payment record, then update and save the chit,
updating the customer aggregates in between, exactly in the source's
order (so a chit-save failure still leaves the payment persisted). -/
def processPayment (db : DB) (chit : Chit) (req : PaymentReq) (rate : ℚ)
    (now : JDate) (year seq : ℕ) : ApiResult (ChitPayment × Chit) × DB :=
  let actual := chit.paidInstallments + 1
  let goldWeight := rdiv req.amount rate
  let receiptNum := chosenReceiptNumber req.receiptNumber year seq
  let payment : ChitPayment :=
    { chitId := chit.id
      chitNumber := chit.chitNumber
      customerId := chit.customerId
      customerName := chit.customerName
      installmentNumber := actual
      amount := req.amount
      paymentDate := req.paymentDate.getD now
      paymentMethod := req.paymentMethod.getD PayMethod.cash
      goldDetails :=
        { goldRate := rate
          goldWeight := goldWeight
          purity := "22K"
          calculatedValue := req.amount }
      receiptNumber := receiptNum
      notes := req.notes.getD ("")
      collectedBy := req.collectedBy.getD ("Admin")
      paymentStatus := PaymentStatus.completed }
  match paymentSave db payment with
  | Except.error _ => (ApiResult.err 500 ("Server error while recording payment"), db)
  | Except.ok (p, db1) =>
    let chit1 : Chit :=
      { chit with
        paidInstallments := actual
        remainingInstallments := chit.totalInstallments - actual
        paymentMethod := req.paymentMethod.getD PayMethod.cash
        accumulatedGold :=
          { chit.accumulatedGold with
            totalWeight := radd chit.accumulatedGold.totalWeight goldWeight
            currentGoldRate := rate }
        paymentHistory := chit.paymentHistory ++
          [{ installmentNumber := actual
             paymentDate := p.paymentDate
             amount := req.amount
             goldRate := rate
             goldWeight := goldWeight
             receiptNumber := receiptNum }]
        nextDueDate := addOneMonth chit.nextDueDate }
    if chit1.totalInstallments ≤ chit1.paidInstallments then
      let chit2 := { chit1 with status := ChitStatus.completed, endDate := now }
      -- intended $inc: completedChits, activeChits, totalGoldWeight — stripped
      let db2 := updateCustomerChitStats db1 chit.customerId
      match chitSave now chit2 with
      | Except.error _ => (ApiResult.err 500 ("Server error while recording payment"), db2)
      | Except.ok chit3 => (ApiResult.ok (p, chit3), setChit db2 chit3)
    else
      -- intended $inc: totalPaid, totalGoldWeight, totalInstallmentsPaid — stripped
      let db2 := updateCustomerChitStats db1 chit.customerId
      match chitSave now chit1 with
      | Except.error _ => (ApiResult.err 500 ("Server error while recording payment"), db2)
      | Except.ok chit3 => (ApiResult.ok (p, chit3), setChit db2 chit3)

/-- `POST /chits/:id/payment` (routes/chits.js): guards, then the success
path. -/
def recordPayment (db : DB) (cid : ℕ) (req : PaymentReq) (now : JDate)
    (year seq : ℕ) : ApiResult (ChitPayment × Chit) × DB :=
  match findChit db cid with
  | none => (ApiResult.err 404 ("Chit not found"), db)
  | some chit =>
    if chit.status ≠ ChitStatus.active then
      (ApiResult.err 400 ("Chit is not active"), db)
    else
      match req.currentGoldRate with
      | none => (ApiResult.err 400 ("Current gold rate is required"), db)
      | some rate =>
        if rate ≤ 0 then (ApiResult.err 400 ("Current gold rate is required"), db)
        else if instMismatch req chit then
          (ApiResult.err 400 ("Installment number mismatch"), db)
        else processPayment db chit req rate now year seq

/-- `PATCH /chits/:id/status` (routes/chits.js): `findByIdAndUpdate` with
`$set: { status }` and `new: true`, bypassing the save middleware.  The
customer-stat branches compare the requested status against the status of
the already-updated document the route received back, so none of them can
fire; they are reproduced literally. -/
def updateChitStatus (db : DB) (cid : ℕ) (status : ChitStatus) :
    ApiResult Chit × DB :=
  match findChit db cid with
  | none => (ApiResult.err 404 ("Chit not found"), db)
  | some chit =>
    let updated := { chit with status := status }
    let db1 := setChit db updated
    -- the route's stat branches compare against the already-updated
    -- document (dead guards), and the $inc payloads are stripped anyway
    let db2 :=
      if status = ChitStatus.active ∧ updated.status ≠ ChitStatus.active then
        updateCustomerChitStats db1 updated.customerId
      else if status = ChitStatus.completed ∧ updated.status = ChitStatus.active then
        updateCustomerChitStats db1 updated.customerId
      else if status = ChitStatus.defaulted ∧ updated.status = ChitStatus.active then
        updateCustomerChitStats db1 updated.customerId
      else if status = ChitStatus.settled ∧ updated.status = ChitStatus.completed then
        updateCustomerChitStats db1 updated.customerId
      else db1
    (ApiResult.ok updated, db2)

/-- `DELETE /chits/:id` (routes/chits.js): delete all payments whose
`chitId` references the chit, call the customer-stats helper with the
compensating `$inc` deltas (totalChits, the status-specific count,
totalInvestment, totalPaid, totalGoldWeight — all stripped by strict
mode, so the customer document is untouched), then delete the chit
document. -/
def deleteChit (db : DB) (cid : ℕ) : ApiResult Unit × DB :=
  match findChit db cid with
  | none => (ApiResult.err 404 ("Chit not found"), db)
  | some chit =>
    let db1 := { db with payments := db.payments.filter (fun p => !(p.chitId == chit.id)) }
    let db2 := updateCustomerChitStats db1 chit.customerId
    let db3 := { db2 with chits := db2.chits.filter (fun c => !(c.id == cid)) }
    (ApiResult.ok (), db3)

/-- Request body of `POST /chits/:id/settle`. -/
structure SettleReq where
  settlementType : Option SettlementType
  settlementAmount : Option ℚ
  settlementDate : Option JDate
  settlementGoldRate : Option ℚ
deriving DecidableEq, Repr

/-- Whether a settlement type is gold-based (`gold` or `partial_gold`). -/
def isGoldSettlement (sType : SettlementType) : Bool :=
  decide (sType = SettlementType.gold) || decide (sType = SettlementType.partialGold)

/-- The settlement amount computed by `POST /chits/:id/settle`: for a
gold-based type with a truthy gold rate and a truthy (nonzero) accumulated
gold weight, the weight times the rate; otherwise the client-supplied
amount (default 0). -/
def settleAmountOf (chit : Chit) (req : SettleReq) (sType : SettlementType) : ℚ :=
  if isGoldSettlement sType && truthyRat req.settlementGoldRate &&
      decide (chit.accumulatedGold.totalWeight ≠ 0) then
    rmul chit.accumulatedGold.totalWeight (req.settlementGoldRate.getD 0)
  else req.settlementAmount.getD 0

/-- The persistence tail of `POST /chits/:id/settle`: write the settlement
fields, save the chit, then update the customer aggregates. -/
def settleChitFinish (db : DB) (chit : Chit) (sType : SettlementType) (amt : ℚ)
    (sDate : JDate) (goldRate : Option ℚ) (now : JDate) : ApiResult Chit × DB :=
  let chit1 :=
    { chit with
      settlementType := some sType
      settlementAmount := some amt
      settlementDate := some sDate
      settlementGoldRate := goldRate
      settlementStatus := some SettlementState.completed
      status := ChitStatus.settled }
  match chitSave now chit1 with
  | Except.error _ => (ApiResult.err 500 ("Server error while processing settlement"), db)
  | Except.ok saved =>
    let db1 := setChit db saved
    -- intended $inc: settledChits, completedChits, and the per-type
    -- settlement counter — stripped by strict mode
    let db2 := updateCustomerChitStats db1 chit.customerId
    (ApiResult.ok saved, db2)

/-- `POST /chits/:id/settle` (routes/chits.js): cash or gold settlement of
a completed chit.  For gold settlement types a truthy gold rate is
required, and the settlement amount is derived from the accumulated gold
weight when that weight is itself truthy (nonzero). -/
def settleChit (db : DB) (cid : ℕ) (req : SettleReq) (now : JDate) :
    ApiResult Chit × DB :=
  let sType := req.settlementType.getD SettlementType.cash
  match findChit db cid with
  | none => (ApiResult.err 404 ("Chit not found"), db)
  | some chit =>
    if chit.status ≠ ChitStatus.completed then
      (ApiResult.err 400 ("Chit must be completed before settlement"), db)
    else
      if isGoldSettlement sType && !truthyRat req.settlementGoldRate then
        (ApiResult.err 400 ("Settlement gold rate is required for gold settlements"), db)
      else
        settleChitFinish db chit sType (settleAmountOf chit req sType)
          (req.settlementDate.getD now) req.settlementGoldRate now

/-- Request body of `POST /chits/:id/settle-purchase`. -/
structure SettlePurchaseReq where
  purchaseAmount : Option ℚ
  invoiceNumber : Option String
  items : List PurchaseItem
  settlementType : Option SettlementType
  settlementDate : Option JDate
  settlementGoldRate : Option ℚ
deriving DecidableEq, Repr

/-- The notes line appended by a purchase settlement (a missing invoice
number interpolates as the string undefined, as a JavaScript template
literal does). -/
def purchaseNotes (chit : Chit) (req : SettlePurchaseReq) : String :=
  let noteLine := "Settled for purchase - Invoice: " ++ req.invoiceNumber.getD ("undefined")
  if chit.notes = "" then noteLine else chit.notes ++ "\n" ++ noteLine

/-- The persistence tail of `POST /chits/:id/settle-purchase`. -/
def settlePurchaseFinish (db : DB) (chit : Chit) (sType : SettlementType)
    (req : SettlePurchaseReq) (newNotes : String) (now : JDate) :
    ApiResult Chit × DB :=
  let chit1 :=
    { chit with
      settlementType := some sType
      settlementAmount := req.purchaseAmount
      settlementDate := some (req.settlementDate.getD now)
      settlementGoldRate := req.settlementGoldRate
      purchaseInvoiceNumber := req.invoiceNumber
      purchaseItems := req.items
      status := ChitStatus.settled
      settlementStatus := some SettlementState.completed
      notes := newNotes }
  match chitSave now chit1 with
  | Except.error _ =>
    (ApiResult.err 500 ("Server error while settling chit for purchase"), db)
  | Except.ok saved =>
    let db1 := setChit db saved
    -- intended $inc: settledChits, completedChits, purchaseSettlements — stripped
    let db2 := updateCustomerChitStats db1 chit.customerId
    (ApiResult.ok saved, db2)

/-- `POST /chits/:id/settle-purchase` (routes/chits.js): purchase
settlement of a completed chit; the settlement amount is the supplied
purchase amount, an invoice number and line-item snapshot are recorded,
and a note is appended (a missing invoice number interpolates as the
string undefined, as a JavaScript template literal does). -/
def settlePurchase (db : DB) (cid : ℕ) (req : SettlePurchaseReq) (now : JDate) :
    ApiResult Chit × DB :=
  let sType := req.settlementType.getD SettlementType.purchaseSettlement
  match findChit db cid with
  | none => (ApiResult.err 404 ("Chit not found"), db)
  | some chit =>
    if chit.status ≠ ChitStatus.completed then
      (ApiResult.err 400 ("Chit must be completed before settling for purchase"), db)
    else
      settlePurchaseFinish db chit sType req (purchaseNotes chit req) now

/-- Request body of `POST /chit-payments` (the direct payment endpoint). -/
structure DirectPayReq where
  chitId : Option ℕ
  chitNumber : Option (List Char)
  customerId : Option ℕ
  customerName : Option String
  amount : Option ℚ
  paymentMethod : Option PayMethod
  paymentDate : Option JDate
  receiptNumber : Option (List Char)
  currentGoldRate : Option ℚ
  notes : Option String
  collectedBy : Option String
deriving DecidableEq, Repr

/-- `POST /chit-payments` (the chit-payments router): record a payment
document directly.  No chit-status guard is applied and the chit document
itself is never modified.  The `customerId` fallback of the source
(`chit.customerId || paymentData.customerId`) is modelled as the chit's
value, a Mongo object id being always truthy. -/
def recordDirectPayment (db : DB) (req : DirectPayReq) (nowMs rand : ℕ)
    (now : JDate) : ApiResult ChitPayment × DB :=
  -- JavaScript truthiness of the required-fields check.
  if req.chitId = none ∨ req.amount.getD 0 = 0 ∨ req.paymentMethod = none ∨
      req.currentGoldRate.getD 0 = 0 then
    (ApiResult.err 400 ("Missing required payment fields"), db)
  else
    let rate := req.currentGoldRate.getD 0
    if rate ≤ 0 then
      (ApiResult.err 400 ("Current gold rate must be greater than 0"), db)
    else
      match findChit db (req.chitId.getD 0) with
      | none => (ApiResult.err 404 ("Chit not found"), db)
      | some chit =>
        let amount := req.amount.getD 0
        let receipt := chosenDirectReceipt req.receiptNumber nowMs rand
        let payment : ChitPayment :=
          { chitId := chit.id
            chitNumber := if chit.chitNumber = [] then req.chitNumber.getD [] else chit.chitNumber
            customerId := chit.customerId
            customerName := if chit.customerName = "" then req.customerName.getD ("") else chit.customerName
            installmentNumber := chit.paidInstallments + 1
            amount := amount
            paymentDate := req.paymentDate.getD now
            paymentMethod := req.paymentMethod.getD PayMethod.cash
            goldDetails :=
              { goldRate := rate
                goldWeight := rdiv amount rate
                purity := "22K"
                calculatedValue := amount }
            receiptNumber := receipt
            notes := req.notes.getD ("")
            collectedBy := req.collectedBy.getD ("Admin")
            paymentStatus := PaymentStatus.completed }
        match paymentSave db payment with
        | Except.error _ => (ApiResult.err 400 ("Payment save failed"), db)
        | Except.ok (p, db1) => (ApiResult.ok p, db1)

/-- One invocation of `POST /chits/:id/payment` bundled with its ambient
inputs (current date, current year, receipt-counter value). -/
structure PayArg where
  req : PaymentReq
  now : JDate
  year : ℕ
  seq : ℕ
deriving Repr

/-- Sequential submission of payment requests against one chit; the Bool
records whether every request succeeded. -/
def runPayments (cid : ℕ) : DB → List PayArg → DB × Bool
  | db, [] => (db, true)
  | db, a :: rest =>
    match recordPayment db cid a.req a.now a.year a.seq with
    | (ApiResult.ok _, db1) => runPayments cid db1 rest
    | (ApiResult.err _ _, db1) => (db1, false)

/-! ## Helper lemmas about the save middleware -/

@[simp] theorem applySettlementDefault_remainingInstallments (c : Chit) :
    (applySettlementDefault c).remainingInstallments = c.remainingInstallments := by
  unfold applySettlementDefault
  rcases hA : c.settlementAmount with _ | a <;> rcases hS : c.settlementStatus with _ | s <;>
    simp [hA, hS] <;> try (split <;> simp [hA, hS])

@[simp] theorem applySettlementDefault_totalInstallments (c : Chit) :
    (applySettlementDefault c).totalInstallments = c.totalInstallments := by
  unfold applySettlementDefault
  rcases hA : c.settlementAmount with _ | a <;> rcases hS : c.settlementStatus with _ | s <;>
    simp [hA, hS] <;> try (split <;> simp [hA, hS])

@[simp] theorem applySettlementDefault_paidInstallments (c : Chit) :
    (applySettlementDefault c).paidInstallments = c.paidInstallments := by
  unfold applySettlementDefault
  rcases hA : c.settlementAmount with _ | a <;> rcases hS : c.settlementStatus with _ | s <;>
    simp [hA, hS] <;> try (split <;> simp [hA, hS])

@[simp] theorem applySettlementDefault_accumulatedGold (c : Chit) :
    (applySettlementDefault c).accumulatedGold = c.accumulatedGold := by
  unfold applySettlementDefault
  rcases hA : c.settlementAmount with _ | a <;> rcases hS : c.settlementStatus with _ | s <;>
    simp [hA, hS] <;> try (split <;> simp [hA, hS])

@[simp] theorem applySettlementDefault_id (c : Chit) :
    (applySettlementDefault c).id = c.id := by
  unfold applySettlementDefault
  rcases hA : c.settlementAmount with _ | a <;> rcases hS : c.settlementStatus with _ | s <;>
    simp [hA, hS] <;> try (split <;> simp [hA, hS])

@[simp] theorem applySettlementDefault_installmentAmount (c : Chit) :
    (applySettlementDefault c).installmentAmount = c.installmentAmount := by
  unfold applySettlementDefault
  rcases hA : c.settlementAmount with _ | a <;> rcases hS : c.settlementStatus with _ | s <;>
    simp [hA, hS] <;> try (split <;> simp [hA, hS])

@[simp] theorem applySettlementDefault_nextDueDate (c : Chit) :
    (applySettlementDefault c).nextDueDate = c.nextDueDate := by
  unfold applySettlementDefault
  rcases hA : c.settlementAmount with _ | a <;> rcases hS : c.settlementStatus with _ | s <;>
    simp [hA, hS] <;> try (split <;> simp [hA, hS])

@[simp] theorem applySettlementDefault_settlementAmount (c : Chit) :
    (applySettlementDefault c).settlementAmount = c.settlementAmount := by
  unfold applySettlementDefault
  rcases hA : c.settlementAmount with _ | a <;> rcases hS : c.settlementStatus with _ | s <;>
    simp [hA, hS] <;> try (split <;> simp [hA, hS])

@[simp] theorem applySettlementDefault_customerId (c : Chit) :
    (applySettlementDefault c).customerId = c.customerId := by
  unfold applySettlementDefault
  rcases hA : c.settlementAmount with _ | a <;> rcases hS : c.settlementStatus with _ | s <;>
    simp [hA, hS] <;> try (split <;> simp [hA, hS])

@[simp] theorem applySettlementDefault_status (c : Chit) :
    (applySettlementDefault c).status = c.status := by
  unfold applySettlementDefault
  rcases hA : c.settlementAmount with _ | a <;> rcases hS : c.settlementStatus with _ | s <;>
    simp [hA, hS] <;> try (split <;> simp [hA, hS])

@[simp] theorem applySettlementDefault_chitNumber (c : Chit) :
    (applySettlementDefault c).chitNumber = c.chitNumber := by
  unfold applySettlementDefault
  rcases hA : c.settlementAmount with _ | a <;> rcases hS : c.settlementStatus with _ | s <;>
    simp [hA, hS] <;> try (split <;> simp [hA, hS])

theorem chitPreSave_basic (now : JDate) (c : Chit) :
    (chitPreSave now c).remainingInstallments = c.totalInstallments - c.paidInstallments ∧
    (chitPreSave now c).totalInstallments = c.totalInstallments ∧
    (chitPreSave now c).paidInstallments = c.paidInstallments ∧
    (chitPreSave now c).accumulatedGold = c.accumulatedGold ∧
    (chitPreSave now c).id = c.id ∧
    (chitPreSave now c).installmentAmount = c.installmentAmount ∧
    (chitPreSave now c).nextDueDate = c.nextDueDate ∧
    (chitPreSave now c).settlementAmount = c.settlementAmount ∧
    (chitPreSave now c).customerId = c.customerId := by
  unfold chitPreSave
  dsimp only
  split <;> simp

theorem chitPreSave_status_eq (now : JDate) (c : Chit) :
    (chitPreSave now c).status =
      (if c.status = ChitStatus.active ∧ c.totalInstallments ≤ c.paidInstallments
       then ChitStatus.completed else c.status) := by
  unfold chitPreSave
  dsimp only
  split <;> simp_all

theorem chitPreSave_status_of_ne_active (now : JDate) (c : Chit)
    (h : c.status ≠ ChitStatus.active) :
    (chitPreSave now c).status = c.status := by
  rw [chitPreSave_status_eq]
  rw [if_neg]
  intro hcon
  exact h hcon.1

theorem chitPreSave_active_not_full (now : JDate) (c : Chit)
    (h : (chitPreSave now c).status = ChitStatus.active) :
    (chitPreSave now c).paidInstallments < (chitPreSave now c).totalInstallments := by
  obtain ⟨-, h2, h3, -⟩ := chitPreSave_basic now c
  rw [chitPreSave_status_eq] at h
  rw [h2, h3]
  split at h
  · cases h
  · rename_i hcond
    rw [Classical.not_and_iff_or_not_not] at hcond
    rcases hcond with hc | hc
    · exact absurd h hc
    · omega

/-! ## Shared concrete sample data for witnesses and counterexamples -/

def sampleDate : JDate := ⟨2025, 0, 15⟩

def sampleGold : AccumulatedGold :=
  { totalWeight := 2, weightPerInstallment := 1 / 5, currentGoldRate := 5000, purity := "22K" }

def baseChit : Chit :=
  { id := 1
    chitNumber := "CHIT20250001".toList
    customerId := 7
    customerName := "Asha"
    customerPhone := "9000000001"
    startDate := sampleDate
    endDate := ⟨2026, 0, 15⟩
    chitAmount := 11000
    installmentAmount := 1000
    totalInstallments := 11
    paidInstallments := 2
    remainingInstallments := 9
    accumulatedGold := sampleGold
    nextDueDate := ⟨2025, 2, 15⟩
    paymentHistory := []
    status := ChitStatus.active
    paymentMethod := PayMethod.cash
    notes := ""
    settlementType := none
    settlementDate := none
    settlementAmount := none
    settlementGoldRate := none
    settlementStatus := some SettlementState.pending
    purchaseInvoiceNumber := none
    purchaseItems := [] }

def sampleCustomer : Customer :=
  { id := 7
    name := "Asha"
    phone := "9876543210".toList
    email := none
    gstNumber := none
    aadharNumber := none
    panNumber := none
    createdAt := { year := 2025, month := 0, day := 2 } }

def sampleDB : DB :=
  { chits := [baseChit], payments := [], customers := [sampleCustomer],
    goldRate22K := some 5000 }

/-- A fully paid, completed chit (5 grams of accumulated gold). -/
def completedChit : Chit :=
  { baseChit with
    status := ChitStatus.completed
    paidInstallments := 11
    remainingInstallments := 0
    accumulatedGold := { sampleGold with totalWeight := 5 } }

def dbCompleted : DB := { sampleDB with chits := [completedChit] }

def cashSettleReq : SettleReq :=
  { settlementType := some SettlementType.cash, settlementAmount := some 12000,
    settlementDate := none, settlementGoldRate := none }

def purchaseSettleReq : SettlePurchaseReq :=
  { purchaseAmount := some 15000, invoiceNumber := some ("INV1"), items := [],
    settlementType := none, settlementDate := none, settlementGoldRate := none }

/-- The chit returned by a concrete cash settlement. -/
def settleCashOut : Chit :=
  match (settleChit dbCompleted 1 cashSettleReq sampleDate).1 with
  | ApiResult.ok c => c
  | ApiResult.err _ _ => completedChit

/-- The chit returned by a concrete purchase settlement. -/
def settlePurchaseOut : Chit :=
  match (settlePurchase dbCompleted 1 purchaseSettleReq sampleDate).1 with
  | ApiResult.ok c => c
  | ApiResult.err _ _ => completedChit

/-! ## Claim C1 -/

/-- Claim C1: after every persistence of a chit through the save path
(creation, payment recording, settlement, or any other save), the stored
remainingInstallments field equals totalInstallments minus
paidInstallments — the pre-save middleware recomputes it on every save. -/
theorem chitSave_remaining_invariant (now : JDate) (c c1 : Chit)
    (h : chitSave now c = Except.ok c1) :
    c1.remainingInstallments = c1.totalInstallments - c1.paidInstallments := by
  unfold chitSave at h
  split at h
  · cases h
    obtain ⟨h1, h2, h3, -⟩ := chitPreSave_basic now c
    rw [h1, h2, h3]
  · cases h

/-- Witness for C1 at a concrete chit. -/
theorem chitSave_remaining_invariant_witness :
    chitSave sampleDate baseChit = Except.ok (chitPreSave sampleDate baseChit) ∧
    (chitPreSave sampleDate baseChit).remainingInstallments =
      (chitPreSave sampleDate baseChit).totalInstallments -
        (chitPreSave sampleDate baseChit).paidInstallments :=
  ⟨rfl, chitSave_remaining_invariant sampleDate baseChit _ rfl⟩

/-! ## Claim C3 -/

/-- Counterexample to claim C3 as stated: the status-update endpoint moves
a chit whose status is active directly into settled, so settled is
reachable from a status other than completed. -/
theorem settled_from_active_via_status_endpoint :
    baseChit.status = ChitStatus.active ∧
    (updateChitStatus sampleDB 1 ChitStatus.settled).1 =
      ApiResult.ok { baseChit with status := ChitStatus.settled } ∧
    ((updateChitStatus sampleDB 1 ChitStatus.settled).2.chits.map Chit.status) =
      [ChitStatus.settled] :=
  ⟨rfl, rfl, rfl⟩

theorem settleChitFinish_ok (db : DB) (chit : Chit) (sType : SettlementType)
    (amt : ℚ) (sDate : JDate) (goldRate : Option ℚ) (now : JDate)
    (out : Chit) (db1 : DB)
    (h : settleChitFinish db chit sType amt sDate goldRate now = (ApiResult.ok out, db1)) :
    out.status = ChitStatus.settled ∧ out.settlementAmount = some amt := by
  unfold settleChitFinish at h
  dsimp only at h
  split at h
  · simp at h
  · rename_i saved hsave
    simp only [Prod.mk.injEq, ApiResult.ok.injEq] at h
    obtain ⟨hout, -⟩ := h
    subst hout
    unfold chitSave at hsave
    split at hsave
    · injection hsave with h2
      subst h2
      constructor
      · rw [chitPreSave_status_of_ne_active]
        simp
      · obtain ⟨-, -, -, -, -, -, -, hA, -⟩ := chitPreSave_basic now _
        rw [hA]
    · simp at hsave

theorem settlePurchaseFinish_ok (db : DB) (chit : Chit) (sType : SettlementType)
    (req : SettlePurchaseReq) (newNotes : String) (now : JDate)
    (out : Chit) (db1 : DB)
    (h : settlePurchaseFinish db chit sType req newNotes now = (ApiResult.ok out, db1)) :
    out.status = ChitStatus.settled := by
  unfold settlePurchaseFinish at h
  dsimp only at h
  split at h
  · simp at h
  · rename_i saved hsave
    simp only [Prod.mk.injEq, ApiResult.ok.injEq] at h
    obtain ⟨hout, -⟩ := h
    subst hout
    unfold chitSave at hsave
    split at hsave
    · injection hsave with h2
      subst h2
      rw [chitPreSave_status_of_ne_active]
      simp
    · simp at hsave

/-- Claim C3 as amended: the two settlement endpoints move a chit into
settled only from completed; the status-update endpoint, however, can set
settled from any status. -/
theorem settle_endpoints_require_completed :
    (∀ db cid req now out db1,
      settleChit db cid req now = (ApiResult.ok out, db1) →
      ∃ c, findChit db cid = some c ∧ c.status = ChitStatus.completed ∧
        out.status = ChitStatus.settled) ∧
    (∀ db cid req now out db1,
      settlePurchase db cid req now = (ApiResult.ok out, db1) →
      ∃ c, findChit db cid = some c ∧ c.status = ChitStatus.completed ∧
        out.status = ChitStatus.settled) := by
  constructor
  · intro db cid req now out db1 h
    unfold settleChit at h
    split at h
    · simp at h
    · rename_i chit hfind
      refine ⟨chit, hfind, ?_⟩
      split at h
      · simp at h
      · rename_i hstat
        push_neg at hstat
        refine ⟨hstat, ?_⟩
        dsimp only at h
        split at h
        · simp at h
        · exact (settleChitFinish_ok _ _ _ _ _ _ _ _ _ h).1
  · intro db cid req now out db1 h
    unfold settlePurchase at h
    split at h
    · simp at h
    · rename_i chit hfind
      refine ⟨chit, hfind, ?_⟩
      split at h
      · simp at h
      · rename_i hstat
        push_neg at hstat
        dsimp only at h
        exact ⟨hstat, settlePurchaseFinish_ok _ _ _ _ _ _ _ _ h⟩

/-- Witness for the amended C3 at a concrete completed chit settled for
cash through each endpoint. -/
theorem settle_endpoints_require_completed_witness :
    (∃ c, findChit dbCompleted 1 = some c ∧ c.status = ChitStatus.completed ∧
      (settleCashOut).status = ChitStatus.settled) ∧
    (∃ c, findChit dbCompleted 1 = some c ∧ c.status = ChitStatus.completed ∧
      (settlePurchaseOut).status = ChitStatus.settled) :=
  ⟨settle_endpoints_require_completed.1 dbCompleted 1 cashSettleReq sampleDate
      settleCashOut (settleChit dbCompleted 1 cashSettleReq sampleDate).2 rfl,
    settle_endpoints_require_completed.2 dbCompleted 1 purchaseSettleReq sampleDate
      settlePurchaseOut (settlePurchase dbCompleted 1 purchaseSettleReq sampleDate).2 rfl⟩

/-! ## Claim C4 -/

/-- A completed chit with zero accumulated gold weight. -/
def zeroWeightChit : Chit :=
  { completedChit with accumulatedGold := { sampleGold with totalWeight := 0 } }

def dbZeroWeight : DB := { sampleDB with chits := [zeroWeightChit] }

def goldZeroReq : SettleReq :=
  { settlementType := some SettlementType.gold, settlementAmount := some 500,
    settlementDate := none, settlementGoldRate := some 6000 }

/-- Extract the stored settlement amount of a settlement response. -/
def settledAmount (r : ApiResult Chit × DB) : Option (Option ℚ) :=
  match r.1 with
  | ApiResult.ok c => some c.settlementAmount
  | ApiResult.err _ _ => none

/-- Counterexample to claim C4 as stated: on a completed chit whose
accumulated gold weight is 0 (falsy in JavaScript), a gold settlement with
a client-supplied amount of 500 succeeds and stores 500, not
totalWeight times the rate (which would be 0). -/
theorem gold_settlement_zero_weight_keeps_client_amount :
    (findChit dbZeroWeight 1).map (fun c => c.accumulatedGold.totalWeight) = some 0 ∧
    (findChit dbZeroWeight 1).map Chit.status = some ChitStatus.completed ∧
    settledAmount (settleChit dbZeroWeight 1 goldZeroReq sampleDate) = some (some 500) ∧
    (500 : ℚ) ≠ 0 * 6000 :=
  ⟨rfl, rfl, rfl, by norm_num⟩

/-- Claim C4 as amended: for a gold or partial-gold settlement of a
completed chit, a truthy settlement gold rate is required (absent or zero
fails with no state change), and whenever the accumulated gold weight is
nonzero the stored settlement amount is the weight times the supplied
rate, overriding any client-supplied amount; a zero weight keeps the
client-supplied amount. -/
theorem gold_settlement_rate_required_and_amount_derived
    (db : DB) (cid : ℕ) (req : SettleReq) (now : JDate) (chit : Chit)
    (hfind : findChit db cid = some chit)
    (hstat : chit.status = ChitStatus.completed)
    (hGold : isGoldSettlement (req.settlementType.getD SettlementType.cash) = true) :
    ((req.settlementGoldRate = none ∨ req.settlementGoldRate = some 0 →
      settleChit db cid req now =
        (ApiResult.err 400 "Settlement gold rate is required for gold settlements", db)) ∧
     (∀ r out db1, req.settlementGoldRate = some r →
      chit.accumulatedGold.totalWeight ≠ 0 →
      settleChit db cid req now = (ApiResult.ok out, db1) →
      out.settlementAmount = some (chit.accumulatedGold.totalWeight * r))) := by
  constructor
  · intro hrate0
    unfold settleChit
    simp only [hfind]
    rw [if_neg (by simp [hstat])]
    rw [if_pos]
    rcases hrate0 with h1 | h1 <;> simp [truthyRat, h1, hGold]
  · intro r out db1 hrate hw h
    unfold settleChit at h
    simp only [hfind] at h
    rw [if_neg (by simp [hstat])] at h
    split at h
    · simp at h
    · rename_i hcond
      have hok := settleChitFinish_ok _ _ _ _ _ _ _ _ _ h
      rw [hok.2]
      congr 1
      have htruthy : truthyRat req.settlementGoldRate = true := by
        simp [hGold] at hcond
        exact hcond
      unfold settleAmountOf
      rw [if_pos]
      · rw [hrate, rmul_eq]
        rfl
      · simp [hGold, htruthy, hw]

def goldSettleReq : SettleReq :=
  { settlementType := some SettlementType.gold, settlementAmount := some 500,
    settlementDate := none, settlementGoldRate := some 6000 }

def goldNoRateReq : SettleReq :=
  { settlementType := some SettlementType.gold, settlementAmount := some 500,
    settlementDate := none, settlementGoldRate := none }

/-- The chit returned by a concrete gold settlement of the completed chit
holding 5 grams at rate 6000. -/
def goldSettleOut : Chit :=
  match (settleChit dbCompleted 1 goldSettleReq sampleDate).1 with
  | ApiResult.ok c => c
  | ApiResult.err _ _ => completedChit

/-- Witness for the amended C4: a missing rate is rejected, and with
weight 5 and rate 6000 the stored amount is 30000 (the specification's own
example), overriding the client-supplied 500. -/
theorem gold_settlement_rate_required_and_amount_derived_witness :
    (settleChit dbCompleted 1 goldNoRateReq sampleDate =
      (ApiResult.err 400 "Settlement gold rate is required for gold settlements",
        dbCompleted)) ∧
    goldSettleOut.settlementAmount =
      some (completedChit.accumulatedGold.totalWeight * 6000) ∧
    completedChit.accumulatedGold.totalWeight * (6000 : ℚ) = 30000 :=
  ⟨(gold_settlement_rate_required_and_amount_derived dbCompleted 1 goldNoRateReq
      sampleDate completedChit rfl rfl rfl).1 (Or.inl rfl),
   (gold_settlement_rate_required_and_amount_derived dbCompleted 1 goldSettleReq
      sampleDate completedChit rfl rfl rfl).2 6000 goldSettleOut
      (settleChit dbCompleted 1 goldSettleReq sampleDate).2 rfl (by decide) rfl,
   by norm_num [completedChit, sampleGold]⟩

/-! ## Claim C5 -/

/-- Whether a route response is a success. -/
def isOkResult {α : Type} (r : ApiResult α) : Bool :=
  match r with
  | ApiResult.ok _ => true
  | ApiResult.err _ _ => false

def zeroInstReq : PaymentReq :=
  { installmentNumber := some 0, amount := 100, paymentMethod := some PayMethod.cash,
    paymentDate := none, receiptNumber := some ("R100".toList),
    currentGoldRate := some 50, notes := none, collectedBy := none }

/-- Counterexample to claim C5 as stated: an explicitly supplied
installment number 0 differs from the expected paidInstallments + 1 = 3,
yet the payment succeeds and a payment record is persisted, because 0 is
falsy in JavaScript and bypasses the mismatch guard. -/
theorem zero_installment_number_bypasses_check :
    zeroInstReq.installmentNumber = some 0 ∧
    (0 : ℤ) ≠ baseChit.paidInstallments + 1 ∧
    isOkResult (recordPayment sampleDB 1 zeroInstReq sampleDate 2025 1).1 = true ∧
    (recordPayment sampleDB 1 zeroInstReq sampleDate 2025 1).2.payments.length = 1 ∧
    sampleDB.payments.length = 0 :=
  ⟨rfl, by decide, rfl, rfl, rfl⟩

/-- Claim C5 as amended: a payment request that explicitly supplies a
nonzero installmentNumber different from paidInstallments + 1 is rejected
with no state change; an explicit zero, being falsy, is treated as if the
field were absent. -/
theorem nonzero_installment_mismatch_rejected
    (db : DB) (cid : ℕ) (req : PaymentReq) (now : JDate) (year seq : ℕ)
    (chit : Chit) (r : ℚ) (n : ℤ)
    (hfind : findChit db cid = some chit)
    (hact : chit.status = ChitStatus.active)
    (hrate : req.currentGoldRate = some r) (hr : 0 < r)
    (hn : req.installmentNumber = some n) (hn0 : n ≠ 0)
    (hne : n ≠ chit.paidInstallments + 1) :
    recordPayment db cid req now year seq =
      (ApiResult.err 400 "Installment number mismatch", db) := by
  unfold recordPayment
  simp only [hfind]
  rw [if_neg (by simp [hact])]
  simp only [hrate]
  rw [if_neg (not_le.mpr hr)]
  rw [if_pos]
  simp [instMismatch, hn, hn0, hne]

def mismatchReq : PaymentReq :=
  { zeroInstReq with installmentNumber := some 7 }

/-- Witness for the amended C5: installment number 7 against expected 3 is
rejected and the store is returned unchanged. -/
theorem nonzero_installment_mismatch_rejected_witness :
    recordPayment sampleDB 1 mismatchReq sampleDate 2025 1 =
      (ApiResult.err 400 "Installment number mismatch", sampleDB) :=
  nonzero_installment_mismatch_rejected sampleDB 1 mismatchReq sampleDate 2025 1
    baseChit 50 7 rfl rfl rfl (by norm_num) rfl (by decide) (by decide)

/-! ## Claim C6 -/

/-- A small fully paid chit: 2 of 2 installments paid, status completed. -/
def fullPaidChit : Chit :=
  { baseChit with
    totalInstallments := 2
    paidInstallments := 2
    remainingInstallments := 0
    status := ChitStatus.completed }

def dbFullPaid : DB := { sampleDB with chits := [fullPaidChit] }

/-- The store after forcing the fully paid chit back to active through the
status-update endpoint. -/
def dbForcedActive : DB := (updateChitStatus dbFullPaid 1 ChitStatus.active).2

def fullPayReq : PaymentReq :=
  { installmentNumber := none, amount := 100, paymentMethod := some PayMethod.cash,
    paymentDate := none, receiptNumber := some ("R200".toList),
    currentGoldRate := some 50, notes := none, collectedBy := none }

/-- Counterexample to claim C6 as stated: a chit with paidInstallments
equal to totalInstallments whose status has been forced back to active
(reachable through the status-update endpoint) accepts a further payment
request far enough that a payment record is persisted — the chit save then
fails validation, but the payment document remains. -/
theorem fully_paid_active_chit_payment_recorded :
    (findChit dbForcedActive 1).map
        (fun c => (c.paidInstallments, c.totalInstallments, c.status)) =
      some (2, 2, ChitStatus.active) ∧
    (recordPayment dbForcedActive 1 fullPayReq sampleDate 2025 1).2.payments.length = 1 ∧
    dbForcedActive.payments.length = 0 :=
  ⟨rfl, rfl, rfl⟩

/-- Claim C6 as amended: a payment against a chit whose status is not
active is rejected with no state change; and any chit persisted through
the save path whose status is active has paidInstallments strictly below
totalInstallments (a fully paid chit auto-advances to completed on save),
so a fully paid saved chit rejects further payments. -/
theorem inactive_chit_payment_rejected :
    (∀ db cid req now year seq chit, findChit db cid = some chit →
      chit.status ≠ ChitStatus.active →
      recordPayment db cid req now year seq =
        (ApiResult.err 400 "Chit is not active", db)) ∧
    (∀ now c c1, chitSave now c = Except.ok c1 →
      c1.status = ChitStatus.active →
      c1.paidInstallments < c1.totalInstallments) := by
  constructor
  · intro db cid req now year seq chit hfind hne
    unfold recordPayment
    simp only [hfind]
    rw [if_pos hne]
  · intro now c c1 hsave hact
    unfold chitSave at hsave
    split at hsave
    · injection hsave with h2
      subst h2
      exact chitPreSave_active_not_full now c hact
    · simp at hsave

/-- Witness for the amended C6: a completed chit rejects a payment with no
state change, and a concrete save of an active partially paid chit leaves
it active with paid strictly below total. -/
theorem inactive_chit_payment_rejected_witness :
    (recordPayment dbFullPaid 1 fullPayReq sampleDate 2025 1 =
      (ApiResult.err 400 "Chit is not active", dbFullPaid)) ∧
    (chitPreSave sampleDate baseChit).paidInstallments <
      (chitPreSave sampleDate baseChit).totalInstallments :=
  ⟨inactive_chit_payment_rejected.1 dbFullPaid 1 fullPayReq sampleDate 2025 1
      fullPaidChit rfl (by decide),
   inactive_chit_payment_rejected.2 sampleDate baseChit
      (chitPreSave sampleDate baseChit) rfl (by decide)⟩

/-! ## Claim C7 -/

/-- Claim C7: chit creation with chit amount A and installment count
N at least 1 stores installmentAmount = round(A / N) (JavaScript
Math.round) and nextDueDate = startDate advanced by one month. -/
theorem createChit_installment_and_due_date
    (db : DB) (req : CreateChitReq) (year seq newId : ℕ) (now : JDate)
    (c : Chit) (db1 : DB) (N : ℤ)
    (hN : req.totalInstallments = some N) (hN1 : 1 ≤ N)
    (h : createChit db req year seq newId now = (ApiResult.ok c, db1)) :
    c.installmentAmount = ((jsRound (req.chitAmount / (N : ℚ))) : ℚ) ∧
    c.nextDueDate = addOneMonth req.startDate := by
  unfold createChit at h
  dsimp only at h
  split at h
  · simp at h
  · split at h
    · simp at h
    · split at h
      · simp at h
      · rename_i saved hsave
        simp only [Prod.mk.injEq, ApiResult.ok.injEq] at h
        obtain ⟨hc, -⟩ := h
        subst hc
        unfold chitSave at hsave
        split at hsave
        · injection hsave with h2
          subst h2
          obtain ⟨-, -, -, -, -, hIA, hND, -⟩ := chitPreSave_basic now _
          rw [hIA, hND]
          simp [hN, rdiv_eq]
        · simp at hsave

def createReq : CreateChitReq :=
  { customerId := some 7, customerName := "Asha", customerPhone := "9000000001",
    startDate := sampleDate, endDate := ⟨2026, 0, 15⟩, chitAmount := 11000,
    totalInstallments := some 11, notes := none }

/-- The chit created by a concrete creation request. -/
def createOut : Chit :=
  match (createChit sampleDB createReq 2025 2 2 sampleDate).1 with
  | ApiResult.ok c => c
  | ApiResult.err _ _ => baseChit

/-- Witness for C7 at the specification's own example: chitAmount 11000
with 11 installments yields installmentAmount 1000, and the next due date
is one month after the January 15 start date. -/
theorem createChit_installment_and_due_date_witness :
    (createOut.installmentAmount = ((jsRound ((11000 : ℚ) / (11 : ℚ))) : ℚ) ∧
      createOut.nextDueDate = addOneMonth sampleDate) ∧
    ((jsRound ((11000 : ℚ) / (11 : ℚ))) : ℚ) = 1000 ∧
    addOneMonth sampleDate = ⟨2025, 1, 15⟩ :=
  ⟨createChit_installment_and_due_date sampleDB createReq 2025 2 2 sampleDate
      createOut (createChit sampleDB createReq 2025 2 2 sampleDate).2 11 rfl
      (by norm_num) rfl,
   by rw [jsRound_eq]; norm_num, by decide⟩

/-! ## Claim C8 -/

def dbForDelete : DB :=
  { chits := [baseChit]
    payments :=
      [{ chitId := 1, chitNumber := baseChit.chitNumber, customerId := 7,
         customerName := "Asha", installmentNumber := 1, amount := 1000,
         paymentDate := sampleDate, paymentMethod := PayMethod.cash,
         goldDetails := { goldRate := 5000, goldWeight := mkRat 1 5,
                          purity := "22K", calculatedValue := 1000 },
         receiptNumber := "RC2025000001".toList, notes := "",
         collectedBy := "Admin", paymentStatus := PaymentStatus.completed },
       { chitId := 9, chitNumber := "CHIT20250009".toList, customerId := 8,
         customerName := "Banu", installmentNumber := 1, amount := 500,
         paymentDate := sampleDate, paymentMethod := PayMethod.cash,
         goldDetails := { goldRate := 5000, goldWeight := mkRat 1 10,
                          purity := "22K", calculatedValue := 500 },
         receiptNumber := "RC2025000002".toList, notes := "",
         collectedBy := "Admin", paymentStatus := PaymentStatus.completed }]
    customers := [sampleCustomer]
    goldRate22K := some 5000 }

/-- Counterexample to claim C8 as stated: deleting a concrete chit whose
recorded contribution is plainly nonzero (chit amount 11000, two paid
installments of 1000, 2 grams of accumulated gold) leaves the owning
customer's document exactly as it was.  The compensating update the route
sends names only `chitCustomer` and `chitDetails.*` paths, none of which
the Customer schema of models/Customer.js defines, so Mongoose's default
strict mode strips the whole update and no counter is decremented. -/
theorem deleteChit_customer_document_unchanged :
    (deleteChit dbForDelete 1).1 = ApiResult.ok () ∧
    (deleteChit dbForDelete 1).2.customers = dbForDelete.customers ∧
    baseChit.chitAmount ≠ 0 ∧ baseChit.customerId = sampleCustomer.id :=
  ⟨rfl, rfl, by decide, rfl⟩

/-- Claim C8 as amended: deleting a chit removes every payment record
whose chitId references it (keeping all others) and removes the chit
document itself, but the owning customer is NOT updated: the compensating
deltas the route sends name fields absent from the Customer schema, so
the strict-mode update strips them all and the customer collection is
unchanged. -/
theorem deleteChit_cascades_and_customers_untouched
    (db : DB) (cid : ℕ) (chit : Chit)
    (hfind : findChit db cid = some chit) :
    (deleteChit db cid).1 = ApiResult.ok () ∧
    (deleteChit db cid).2.payments =
      db.payments.filter (fun p => !(p.chitId == chit.id)) ∧
    (∀ p ∈ (deleteChit db cid).2.payments, p.chitId ≠ cid) ∧
    (∀ p ∈ db.payments, p.chitId ≠ cid → p ∈ (deleteChit db cid).2.payments) ∧
    (deleteChit db cid).2.chits = db.chits.filter (fun c => !(c.id == cid)) ∧
    (deleteChit db cid).2.customers = db.customers := by
  have hid : chit.id = cid := by
    have := List.find?_some hfind
    simpa using this
  have hres : (deleteChit db cid).1 = ApiResult.ok () := by
    unfold deleteChit
    simp only [hfind]
  have hpay : (deleteChit db cid).2.payments =
      db.payments.filter (fun p => !(p.chitId == chit.id)) := by
    unfold deleteChit
    simp only [hfind, updateCustomerChitStats]
  have hchits : (deleteChit db cid).2.chits =
      db.chits.filter (fun c => !(c.id == cid)) := by
    unfold deleteChit
    simp only [hfind, updateCustomerChitStats]
  have hcust : (deleteChit db cid).2.customers = db.customers := by
    unfold deleteChit
    simp only [hfind, updateCustomerChitStats]
  refine ⟨hres, hpay, ?_, ?_, hchits, hcust⟩
  · intro p hp
    rw [hpay] at hp
    have h2 := (List.mem_filter.mp hp).2
    simp [hid] at h2
    exact h2
  · intro p hp hne
    rw [hpay]
    refine List.mem_filter.mpr ⟨hp, ?_⟩
    simp [hid]
    exact hne

/-- Witness for the amended C8 at a concrete store holding one payment of
the deleted chit and one payment of another chit. -/
theorem deleteChit_cascades_and_customers_untouched_witness :
    (deleteChit dbForDelete 1).1 = ApiResult.ok () ∧
    (deleteChit dbForDelete 1).2.payments =
      dbForDelete.payments.filter (fun p => !(p.chitId == baseChit.id)) ∧
    (∀ p ∈ (deleteChit dbForDelete 1).2.payments, p.chitId ≠ 1) ∧
    (∀ p ∈ dbForDelete.payments, p.chitId ≠ 1 →
      p ∈ (deleteChit dbForDelete 1).2.payments) ∧
    (deleteChit dbForDelete 1).2.chits =
      dbForDelete.chits.filter (fun c => !(c.id == 1)) ∧
    (deleteChit dbForDelete 1).2.customers = dbForDelete.customers :=
  deleteChit_cascades_and_customers_untouched dbForDelete 1 baseChit rfl

/-! ## Claim C9 -/

/-- The receipt-number form the claim asserts for every minted receipt:
RC, the year, and a 6-digit zero-padded sequence. -/
def isRCForm (s : List Char) : Prop :=
  ∃ year seq : ℕ,
    s = "RC".toList ++ natDigits year ++ padStart (natDigits seq) 6 '0'

def directReq9 : DirectPayReq :=
  { chitId := some 1, chitNumber := none, customerId := none, customerName := none,
    amount := some 1000, paymentMethod := some PayMethod.cash, paymentDate := none,
    receiptNumber := none, currentGoldRate := some 5000, notes := none,
    collectedBy := none }

/-- The receipt number minted by a concrete direct payment that supplies
no receipt number. -/
def mintedReceipt9 : Option (List Char) :=
  match (recordDirectPayment sampleDB directReq9 1700000000000 42 sampleDate).1 with
  | ApiResult.ok p => some p.receiptNumber
  | ApiResult.err _ _ => none

/-- Counterexample to claim C9 as stated: the direct chit-payments
endpoint mints a fallback receipt number CHIT-{timestamp}-{random} when
the client supplies none, and that identifier is not of the
RC{year}{6-digit sequence} form. -/
theorem direct_endpoint_receipt_not_rc_form :
    mintedReceipt9 = some (fallbackReceiptNumber 1700000000000 42) ∧
    ¬ isRCForm (fallbackReceiptNumber 1700000000000 42) := by
  constructor
  · rfl
  · rintro ⟨y, q, h⟩
    have h2 := congrArg List.head? h
    have hL : (fallbackReceiptNumber 1700000000000 42).head? = some 'C' := rfl
    have hR : ("RC".toList ++ natDigits y ++ padStart (natDigits q) 6 '0').head? =
        some 'R' := rfl
    rw [hL, hR] at h2
    exact absurd h2 (by decide)

/-- Claim C9 as amended: chit numbers minted by the counter helper have
the form CHIT{year}{seq zero-padded to 4 digits} (exactly 4 digits while
the yearly sequence stays below 10000) and receipt numbers minted by the
counter helper have the form RC{year}{seq zero-padded to 6 digits}
(exactly 6 digits below 1000000); the direct chit-payments endpoint,
however, mints fallback receipt numbers CHIT-{timestamp}-{random} that
are not of the RC form. -/
theorem minted_identifier_formats :
    (∀ year seq : ℕ,
      generateChitNumber year seq =
        "CHIT".toList ++ natDigits year ++ padStart (natDigits seq) 4 '0' ∧
      (seq < 10000 → (padStart (natDigits seq) 4 '0').length = 4)) ∧
    (∀ year seq : ℕ,
      generateReceiptNumber year seq =
        "RC".toList ++ natDigits year ++ padStart (natDigits seq) 6 '0' ∧
      (seq < 1000000 → (padStart (natDigits seq) 6 '0').length = 6)) ∧
    (∀ nowMs rand : ℕ,
      fallbackReceiptNumber nowMs rand =
        "CHIT-".toList ++ natDigits nowMs ++ "-".toList ++ natDigits rand) := by
  refine ⟨fun year seq => ⟨rfl, fun hseq => ?_⟩,
          fun year seq => ⟨rfl, fun hseq => ?_⟩,
          fun nowMs rand => rfl⟩
  · rw [padStart_length]
    have h1 : seq < 10 ^ 4 := by norm_num [hseq]
    have := natDigits_length_le 4 seq (by norm_num) h1
    omega
  · rw [padStart_length]
    have h1 : seq < 10 ^ 6 := by norm_num [hseq]
    have := natDigits_length_le 6 seq (by norm_num) h1
    omega

/-- Witness for the amended C9 at concrete sequence values, including the
fully evaluated identifier strings. -/
theorem minted_identifier_formats_witness :
    (padStart (natDigits 1) 4 '0').length = 4 ∧
    (padStart (natDigits 12) 6 '0').length = 6 ∧
    generateChitNumber 2025 1 = "CHIT20250001".toList ∧
    generateReceiptNumber 2025 12 = "RC2025000012".toList :=
  ⟨(minted_identifier_formats.1 2025 1).2 (by norm_num),
   (minted_identifier_formats.2.1 2025 12).2 (by norm_num),
   by decide, by decide⟩

/-! ## Claim C2 -/

theorem paymentSave_ok {db : DB} {q p : ChitPayment} {db1 : DB}
    (h : paymentSave db q = Except.ok (p, db1)) :
    db1.chits = db.chits ∧ db1.customers = db.customers ∧
    db1.payments = db.payments ++ [p] ∧
    p.amount = q.amount ∧
    p.goldDetails.goldRate = q.goldDetails.goldRate ∧
    p.goldDetails.goldWeight =
      (if 0 < q.amount then rdiv q.amount q.goldDetails.goldRate
       else q.goldDetails.goldWeight) := by
  unfold paymentSave at h
  split at h
  · unfold paymentPreSave at h
    split at h
    · simp at h
    · rename_i p1 heq
      split at h
      · simp at h
      · simp only [Except.ok.injEq, Prod.mk.injEq] at h
        obtain ⟨hp, hdb⟩ := h
        subst hp
        subst hdb
        split at heq
        · simp at heq
        · injection heq with heq
          subst heq
          refine ⟨rfl, rfl, rfl, ?_, ?_, ?_⟩
          · split <;> rfl
          · split <;> rfl
          · split <;> rfl
  · simp at h

theorem find?_map_replace (cid : ℕ) (orig c : Chit) (hcid : c.id = orig.id) :
    ∀ l : List Chit, l.find? (fun x => x.id == cid) = some orig →
    (l.map (fun x => if x.id = c.id then c else x)).find? (fun x => x.id == cid) =
      some c := by
  intro l
  induction l with
  | nil =>
    intro hfind
    simp at hfind
  | cons x xs ih =>
    intro hfind
    have horig : orig.id = cid := by
      have h1 := List.find?_some hfind
      simpa using h1
    by_cases hx : (x.id == cid) = true
    · simp only [List.find?_cons, hx] at hfind
      injection hfind with hfind
      subst hfind
      simp only [List.map_cons]
      rw [if_pos hcid.symm]
      simp only [List.find?_cons]
      rw [show (c.id == cid) = true by simpa using hcid.trans horig]
    · have hxf : (x.id == cid) = false := by simpa using hx
      simp only [List.find?_cons, hxf] at hfind
      have hxid : ¬ x.id = cid := by simpa using hxf
      simp only [List.map_cons]
      rw [if_neg (fun hcon => hxid (hcon.trans (hcid.trans horig)))]
      simp only [List.find?_cons, hxf]
      exact ih hfind

theorem processPayment_ok {db : DB} {chit : Chit} {req : PaymentReq} {rate : ℚ}
    {now : JDate} {year seq : ℕ} {out : ChitPayment × Chit} {db1 : DB}
    (h : processPayment db chit req rate now year seq = (ApiResult.ok out, db1)) :
    db1.payments = db.payments ++ [out.1] ∧
    db1.chits = db.chits.map (fun x => if x.id = out.2.id then out.2 else x) ∧
    out.2.id = chit.id ∧
    out.1.goldDetails.goldWeight = out.1.amount / out.1.goldDetails.goldRate ∧
    out.2.accumulatedGold.totalWeight =
      chit.accumulatedGold.totalWeight + out.1.goldDetails.goldWeight := by
  unfold processPayment at h
  dsimp only at h
  split at h
  · simp at h
  · rename_i p dbP heq
    obtain ⟨hchits, hcust, hpay, hamt, hrate, hweight⟩ := paymentSave_ok heq
    have hw2 : p.goldDetails.goldWeight = rdiv req.amount rate := by
      rw [hweight]
      split <;> rfl
    have hamt2 : p.amount = req.amount := hamt
    have hrate2 : p.goldDetails.goldRate = rate := hrate
    split at h
    · split at h
      · simp at h
      · rename_i chit3 heq2
        simp only [Prod.mk.injEq, ApiResult.ok.injEq] at h
        obtain ⟨hout, hdb1⟩ := h
        subst hout
        subst hdb1
        unfold chitSave at heq2
        split at heq2
        · injection heq2 with heq2
          subst heq2
          obtain ⟨-, -, -, hgold, hid, -⟩ := chitPreSave_basic now _
          refine ⟨?_, ?_, ?_, ?_, ?_⟩
          · simp only [setChit, updateCustomerChitStats]
            rw [hpay]
          · simp only [setChit, updateCustomerChitStats]
            rw [hchits]
          · rw [hid]
          · rw [hw2, hamt2, hrate2, rdiv_eq]
          · rw [hgold, hw2]
            dsimp only
            rw [radd_eq]
        · simp at heq2
    · split at h
      · simp at h
      · rename_i chit3 heq2
        simp only [Prod.mk.injEq, ApiResult.ok.injEq] at h
        obtain ⟨hout, hdb1⟩ := h
        subst hout
        subst hdb1
        unfold chitSave at heq2
        split at heq2
        · injection heq2 with heq2
          subst heq2
          obtain ⟨-, -, -, hgold, hid, -⟩ := chitPreSave_basic now _
          refine ⟨?_, ?_, ?_, ?_, ?_⟩
          · simp only [setChit, updateCustomerChitStats]
            rw [hpay]
          · simp only [setChit, updateCustomerChitStats]
            rw [hchits]
          · rw [hid]
          · rw [hw2, hamt2, hrate2, rdiv_eq]
          · rw [hgold, hw2]
            dsimp only
            rw [radd_eq]
        · simp at heq2

theorem recordPayment_ok {db : DB} {cid : ℕ} {req : PaymentReq} {now : JDate}
    {year seq : ℕ} {out : ChitPayment × Chit} {db1 : DB}
    (h : recordPayment db cid req now year seq = (ApiResult.ok out, db1)) :
    ∃ chit, findChit db cid = some chit ∧
      db1.payments = db.payments ++ [out.1] ∧
      findChit db1 cid = some out.2 ∧
      out.1.goldDetails.goldWeight = out.1.amount / out.1.goldDetails.goldRate ∧
      out.2.accumulatedGold.totalWeight =
        chit.accumulatedGold.totalWeight + out.1.goldDetails.goldWeight := by
  unfold recordPayment at h
  split at h
  · simp at h
  · rename_i chit hfind
    split at h
    · simp at h
    · split at h
      · simp at h
      · split at h
        · simp at h
        · split at h
          · simp at h
          · obtain ⟨hpay, hchits, hid, hw, hacc⟩ := processPayment_ok h
            refine ⟨chit, hfind, hpay, ?_, hw, hacc⟩
            unfold findChit
            rw [hchits]
            exact find?_map_replace cid chit out.2 hid db.chits hfind

theorem runPayments_spec (cid : ℕ) :
    ∀ (args : List PayArg) (db : DB) (c0 : Chit),
      findChit db cid = some c0 →
      (runPayments cid db args).2 = true →
      ∃ (suffix : List ChitPayment) (c1 : Chit),
        (runPayments cid db args).1.payments = db.payments ++ suffix ∧
        findChit (runPayments cid db args).1 cid = some c1 ∧
        (∀ p ∈ suffix,
          p.goldDetails.goldWeight = p.amount / p.goldDetails.goldRate) ∧
        c1.accumulatedGold.totalWeight =
          c0.accumulatedGold.totalWeight +
            (suffix.map (fun p => p.goldDetails.goldWeight)).sum := by
  intro args
  induction args with
  | nil =>
    intro db c0 hfind _
    refine ⟨[], c0, by simp [runPayments], by simpa [runPayments] using hfind,
      by simp, by simp⟩
  | cons a rest ih =>
    intro db c0 hfind hok
    rw [runPayments] at hok ⊢
    rcases hrec : recordPayment db cid a.req a.now a.year a.seq with ⟨res, db2⟩
    simp only [hrec] at hok ⊢
    cases res with
    | err n m =>
      simp at hok
    | ok out =>
      dsimp only at hok ⊢
      obtain ⟨chit, hfind0, hpay, hfind1, hw, hacc⟩ := recordPayment_ok hrec
      have hchit : chit = c0 := by
        rw [hfind0] at hfind
        exact Option.some.inj hfind
      subst hchit
      obtain ⟨suffix, c1, h1, h2, h3, h4⟩ := ih db2 out.2 hfind1 hok
      refine ⟨out.1 :: suffix, c1, ?_, h2, ?_, ?_⟩
      · rw [h1, hpay]
        simp
      · intro p hp
        rcases List.mem_cons.mp hp with hp1 | hp1
        · subst hp1
          exact hw
        · exact h3 p hp1
      · rw [h4, hacc]
        simp only [List.map_cons, List.sum_cons]
        ring

/-- Claim C2: every payment recorded through the payment route stores a
gold weight equal to its amount divided by its gold rate, and after N
sequential successful payments against a chit whose accumulated gold
weight started at 0, the chit's accumulatedGold.totalWeight equals the sum
of the N recorded payments' gold weights. -/
theorem payments_gold_weight_and_accumulation (cid : ℕ) (args : List PayArg)
    (db : DB) (c0 : Chit)
    (hfind : findChit db cid = some c0)
    (hzero : c0.accumulatedGold.totalWeight = 0)
    (hok : (runPayments cid db args).2 = true) :
    ∃ (suffix : List ChitPayment) (c1 : Chit),
      (runPayments cid db args).1.payments = db.payments ++ suffix ∧
      findChit (runPayments cid db args).1 cid = some c1 ∧
      (∀ p ∈ suffix,
        p.goldDetails.goldWeight = p.amount / p.goldDetails.goldRate) ∧
      c1.accumulatedGold.totalWeight =
        (suffix.map (fun p => p.goldDetails.goldWeight)).sum := by
  obtain ⟨suffix, c1, h1, h2, h3, h4⟩ := runPayments_spec cid args db c0 hfind hok
  exact ⟨suffix, c1, h1, h2, h3, by rw [h4, hzero, zero_add]⟩

/-- A fresh chit with zero accumulated gold and no payments yet. -/
def freshChit : Chit :=
  { baseChit with
    paidInstallments := 0
    remainingInstallments := 11
    accumulatedGold := { sampleGold with totalWeight := 0 }
    paymentHistory := [] }

def dbFresh : DB := { sampleDB with chits := [freshChit] }

def payArgsC2 : List PayArg :=
  [{ req := { installmentNumber := none, amount := 100,
              paymentMethod := some PayMethod.cash, paymentDate := none,
              receiptNumber := some ("P1".toList), currentGoldRate := some 50,
              notes := none, collectedBy := none },
     now := sampleDate, year := 2025, seq := 1 },
   { req := { installmentNumber := none, amount := 200,
              paymentMethod := some PayMethod.upi, paymentDate := none,
              receiptNumber := some ("P2".toList), currentGoldRate := some 40,
              notes := none, collectedBy := none },
     now := sampleDate, year := 2025, seq := 2 }]

/-- Witness for C2: two concrete sequential payments (100 at rate 50 and
200 at rate 40) both succeed, and the theorem yields the stored weights
and their accumulated sum. -/
theorem payments_gold_weight_and_accumulation_witness :
    (runPayments 1 dbFresh payArgsC2).2 = true ∧
    ∃ (suffix : List ChitPayment) (c1 : Chit),
      (runPayments 1 dbFresh payArgsC2).1.payments = dbFresh.payments ++ suffix ∧
      findChit (runPayments 1 dbFresh payArgsC2).1 1 = some c1 ∧
      (∀ p ∈ suffix,
        p.goldDetails.goldWeight = p.amount / p.goldDetails.goldRate) ∧
      c1.accumulatedGold.totalWeight =
        (suffix.map (fun p => p.goldDetails.goldWeight)).sum :=
  ⟨rfl, payments_gold_weight_and_accumulation 1 payArgsC2 dbFresh freshChit rfl rfl rfl⟩

/-! ## Claim C10 -/

/-- Claim C10: the direct payment endpoint (POST /chit-payments) succeeds
for a chit in any status, appends exactly one payment record, and leaves
the chit collection (and the customers) entirely unchanged. -/
theorem direct_payment_any_status_chit_unchanged
    (db : DB) (req : DirectPayReq) (nowMs rand : ℕ) (now : JDate)
    (cid : ℕ) (chit : Chit) (a r : ℚ) (pm : PayMethod)
    (hcid : req.chitId = some cid)
    (hfind : findChit db cid = some chit)
    (hpaid : 0 ≤ chit.paidInstallments)
    (ha : req.amount = some a) (ha0 : 0 < a)
    (hpm : req.paymentMethod = some pm)
    (hr : req.currentGoldRate = some r) (hr0 : 0 < r)
    (hfresh : ∀ q ∈ db.payments,
      q.receiptNumber ≠ chosenDirectReceipt req.receiptNumber nowMs rand) :
    ∃ p, recordDirectPayment db req nowMs rand now =
      (ApiResult.ok p, { db with payments := db.payments ++ [p] }) := by
  unfold recordDirectPayment
  simp only [hcid, ha, hpm, hr, Option.getD_some]
  rw [if_neg (by push_neg; exact ⟨by simp, ha0.ne', by simp, hr0.ne'⟩)]
  rw [if_neg (not_le.mpr hr0)]
  simp only [hfind]
  unfold paymentSave
  rw [if_pos]
  · unfold paymentPreSave
    dsimp only
    rw [if_neg (not_le.mpr hr0)]
    rw [if_pos ha0]
    dsimp only
    rw [if_neg]
    · exact ⟨_, rfl⟩
    · intro hcon
      obtain ⟨q, hq, hbeq⟩ := List.any_eq_true.mp hcon
      exact hfresh q hq (by simpa using hbeq)
  · unfold paymentValidate
    simp only [Bool.and_eq_true, decide_eq_true_eq]
    refine ⟨⟨⟨⟨le_of_lt ha0, by omega⟩, le_of_lt hr0⟩, ?_⟩, le_of_lt ha0⟩
    rw [rdiv_eq]
    exact div_nonneg (le_of_lt ha0) (le_of_lt hr0)

def settledChit : Chit := { baseChit with status := ChitStatus.settled }

def dbSettled : DB := { sampleDB with chits := [settledChit] }

def directReq10 : DirectPayReq :=
  { chitId := some 1, chitNumber := none, customerId := none, customerName := none,
    amount := some 1000, paymentMethod := some PayMethod.upi, paymentDate := none,
    receiptNumber := some ("RX1".toList), currentGoldRate := some 5000,
    notes := none, collectedBy := none }

/-- Witness for C10: a direct payment against a settled chit succeeds and
the store differs only by the appended payment record. -/
theorem direct_payment_any_status_chit_unchanged_witness :
    settledChit.status = ChitStatus.settled ∧
    ∃ p, recordDirectPayment dbSettled directReq10 0 0 sampleDate =
      (ApiResult.ok p, { dbSettled with payments := dbSettled.payments ++ [p] }) :=
  ⟨rfl,
   direct_payment_any_status_chit_unchanged dbSettled directReq10 0 0 sampleDate
     1 settledChit 1000 5000 PayMethod.upi rfl rfl (by decide) rfl (by norm_num)
     rfl rfl (by norm_num) (by simp [dbSettled, sampleDB])⟩

end NVJ
